import Mathlib

/-!
Verification of the behavioral core of the book-finder application
(src/src/App.js): the query-debounce-fetch-cancel-paginate pipeline.

The embedding is a small-step operational model of the single React
component in App.js:

* pure helpers (URL construction, cover-URL resolution, pagination
  arithmetic) are translated directly as Lean functions;
* the component's state variables together with the effect machinery
  (the debounce timer, the dependency arrays of the two effects, the
  set of outstanding fetch promises and the AbortController of the
  latest fetch-effect run) form a `Runtime` record, and user input,
  timer firing, pagination clicks and network resolutions are the
  events of a step relation on it.
-/

namespace BookFinder

/-- One raw record of the search response (an element of `data.docs`),
with exactly the fields App.js reads. Fields that may be missing from
the JSON are wrapped in `Option`. -/
structure Doc where
  key : String
  title : String
  author_name : Option (List String)
  first_publish_year : Option Nat
  cover_i : Option Nat
  isbn : Option (List String)
deriving DecidableEq, Repr

/-- Page size: `const perPage = 20` in App.js. -/
def perPage : Nat := 20

/-- Default debounce delay: `delay = 450` in `useDebounced`. -/
def defaultDelay : Nat := 450

/-- Characters that JavaScript's `encodeURIComponent` leaves unescaped:
ASCII letters and digits plus `- _ . ! ~ * ' ( )`. -/
def isUnreservedJS (c : Char) : Bool :=
  c.isAlphanum || c = '-' || c = '_' || c = '.' || c = '!' ||
    c = '~' || c = '*' || c = Char.ofNat 39 || c = '(' || c = ')'

/-- UTF-8 byte sequence of a code point, as `encodeURIComponent`
produces for escaped characters. -/
def utf8Bytes (n : Nat) : List Nat :=
  if n < 0x80 then [n]
  else if n < 0x800 then [0xC0 + n / 0x40, 0x80 + n % 0x40]
  else if n < 0x10000 then
    [0xE0 + n / 0x1000, 0x80 + (n / 0x40) % 0x40, 0x80 + n % 0x40]
  else
    [0xF0 + n / 0x40000, 0x80 + (n / 0x1000) % 0x40,
      0x80 + (n / 0x40) % 0x40, 0x80 + n % 0x40]

/-- Uppercase hexadecimal digit, as `encodeURIComponent` emits. -/
def hexDigit (n : Nat) : Char :=
  if n < 10 then Char.ofNat (48 + n) else Char.ofNat (55 + n)

/-- Percent-escape of one byte. -/
def pctByte (b : Nat) : String :=
  String.mk ['%', hexDigit (b / 16), hexDigit (b % 16)]

/-- Model of JavaScript's `encodeURIComponent`, applied in App.js to the
debounced query before it is spliced into the request URL. -/
def encodeURIComponent (s : String) : String :=
  String.join (s.data.map fun c =>
    if isUnreservedJS c then String.singleton c
    else String.join ((utf8Bytes c.toNat).map pctByte))

/-- The request URL built inside `fetchBooks`:
the template string with `start = (page - 1) * perPage`. -/
def requestUrl (q : String) (p : Int) : String :=
  "https://openlibrary.org/search.json?title=" ++ encodeURIComponent q ++
    "&limit=" ++ toString perPage ++ "&offset=" ++ toString ((p - 1) * (perPage : Int))

/-- Truthiness of an optional number, as in `if (doc.cover_i)`:
a missing field and the number 0 are both falsy in JavaScript. -/
def truthyNum : Option Nat → Bool
  | some n => n ≠ 0
  | none => false

/-- Truthiness of `doc.isbn && doc.isbn.length`: the field must be
present and the array non-empty. -/
def truthyList : Option (List String) → Bool
  | some l => l.length ≠ 0
  | none => false

/-- The `coverUrl` helper of App.js. -/
def coverUrl (doc : Doc) : Option String :=
  if truthyNum doc.cover_i then
    some ("https://covers.openlibrary.org/b/id/" ++
      toString (doc.cover_i.getD 0) ++ "-M.jpg")
  else if truthyList doc.isbn then
    some ("https://covers.openlibrary.org/b/isbn/" ++
      (doc.isbn.getD []).headD "" ++ "-M.jpg")
  else none

/-- The `totalPages` value: `Math.ceil(numFound / perPage)`, written as
natural-number ceiling division. -/
def totalPages (numFound : Nat) : Nat :=
  (numFound + (perPage - 1)) / perPage

/-- The page count the UI shows: `Math.max(1, totalPages)`. -/
def displayedTotalPages (numFound : Nat) : Nat :=
  max 1 (totalPages numFound)

/-- The Prev button's click handler: `setPage(p => Math.max(1, p - 1))`. -/
def prevClick (p : Int) : Int := max 1 (p - 1)

/-- The Next button's click handler:
`setPage(p => Math.min(totalPages || 1, p + 1))`. -/
def nextClick (n : Nat) (p : Int) : Int :=
  min (if totalPages n = 0 then 1 else (totalPages n : Int)) (p + 1)

/-- The Prev button's disabled predicate: `page === 1`. -/
def prevDisabled (p : Int) : Bool := p = 1

/-- The Next button's disabled predicate:
`page === totalPages || totalPages === 0`. -/
def nextDisabled (n : Nat) (p : Int) : Bool :=
  p = (totalPages n : Int) || totalPages n = 0

/-- Behaviour of the Prev control as a whole: a disabled button never
fires its click handler. -/
def uiPrev (p : Int) : Int :=
  if prevDisabled p then p else prevClick p

/-- Behaviour of the Next control as a whole: a disabled button never
fires its click handler. -/
def uiNext (n : Nat) (p : Int) : Int :=
  if nextDisabled n p then p else nextClick n p

/-! The component state and the effect machinery -/

/-- The React state variables of `App` (`useState` hooks), plus the
internal value of the `useDebounced` hook (`debouncedQuery`). -/
structure AppState where
  query : String
  debouncedQuery : String
  page : Int
  results : List Doc
  numFound : Nat
  loading : Bool
  error : Option String
deriving DecidableEq, Repr

/-- One outstanding `fetchBooks` call: the key it was issued for and
whether its AbortController has been aborted. -/
structure Request where
  id : Nat
  query : String
  page : Int
  aborted : Bool
deriving DecidableEq, Repr

/-- The URL a request was issued with (the `url` local of `fetchBooks`,
built from the closure's `debouncedQuery` and `page`). -/
def Request.url (r : Request) : String := requestUrl r.query r.page

/-- How a `fetchBooks` call resolves.
`success` carries the parsed JSON fields App.js reads (`data.docs`,
`data.numFound`), each possibly absent; `httpError` is a non-2xx
status (`!res.ok`); `jsonError` is a rejected `res.json()` (non-JSON
body), carrying the exception's message; `aborted` is the AbortError
rejection of a cancelled request. -/
inductive Outcome where
  | success (docs : Option (List Doc)) (numFound : Option Nat)
  | httpError
  | jsonError (msg : String)
  | aborted
deriving DecidableEq, Repr

/-- How the resolution of a `fetchBooks` call updates the component
state, following the try/catch/finally of `fetchBooks`:

* on success, `setResults(data.docs || [])`, `setNumFound(data.numFound || 0)`;
* on `!res.ok`, `throw new Error('Network response was not ok')`,
  caught and surfaced by `setError(err.message)`;
* on a JSON parse failure, the same catch surfaces the message;
* on AbortError the catch returns early, so no `setError` runs —
  but the `finally` clause still executes `setLoading(false)`.

`setLoading(false)` in `finally` runs on every path. -/
def applyOutcome (o : Outcome) (s : AppState) : AppState :=
  match o with
  | .success docs n =>
      { s with results := docs.getD [], numFound := n.getD 0, loading := false }
  | .httpError =>
      { s with error := some "Network response was not ok", loading := false }
  | .jsonError m =>
      { s with error := some m, loading := false }
  | .aborted =>
      { s with loading := false }

/-- The whole live component: React state plus the effect machinery —
the pending debounce timer (the value `setV` will be called with), the
last dependency values of the page-reset effect and of the fetch
effect, the outstanding fetch promises, and the id of the request
created by the latest fetch-effect run (whose AbortController the next
cleanup will abort). -/
structure Runtime where
  app : AppState
  timer : Option String
  resetDeps : Option String
  fetchDeps : Option (String × Int)
  pending : List Request
  currentReq : Option Nat
  nextId : Nat
deriving DecidableEq, Repr

/-- The cleanup of the fetch effect: `controller.abort()` on the
controller created by the previous run, i.e. the request (if any)
created by that run is marked aborted. -/
def abortCurrent (rt : Runtime) : Runtime :=
  { rt with
    pending := rt.pending.map fun r =>
      if some r.id = rt.currentReq then { r with aborted := true } else r }

/-- One run of the fetch effect with the closure values `q`
(`debouncedQuery`) and `p` (`page`): first the previous run's cleanup
(abort), then the body — the empty-query branch clears results, count
and error and issues no request; the non-empty branch does
`setLoading(true)`, `setError(null)` and starts exactly one
`fetchBooks` call for the key `(q, p)`. -/
def runFetchEffect (rt : Runtime) (q : String) (p : Int) : Runtime :=
  let rt := abortCurrent rt
  if q = "" then
    { rt with
      app := { rt.app with results := [], numFound := 0, error := none },
      currentReq := none,
      fetchDeps := some (q, p) }
  else
    { rt with
      app := { rt.app with loading := true, error := none },
      pending := rt.pending ++ [⟨rt.nextId, q, p, false⟩],
      currentReq := some rt.nextId,
      nextId := rt.nextId + 1,
      fetchDeps := some (q, p) }

/-- One passive-effect flush after a committed render with state
`rt.app`: the page-reset effect (deps `[debouncedQuery]`) runs first,
then the fetch effect (deps `[debouncedQuery, page]`), both comparing
deps against their previous values and both closing over the
*committed* state `s` — so a `setPage(1)` from the first effect is not
visible to the second effect of the same flush; it is applied only
after the flush, triggering the next render. -/
def commitStep (rt : Runtime) : Runtime :=
  let s := rt.app
  let fire1 := rt.resetDeps ≠ some s.debouncedQuery
  let rt1 := if fire1 then { rt with resetDeps := some s.debouncedQuery } else rt
  let rt2 :=
    if rt1.fetchDeps ≠ some (s.debouncedQuery, s.page) then
      runFetchEffect rt1 s.debouncedQuery s.page
    else rt1
  if fire1 then { rt2 with app := { rt2.app with page := 1 } } else rt2

/-- A state update and the re-render cascade it triggers. Two flushes
always suffice: the first may schedule `setPage(1)` from the
page-reset effect, the second then re-runs the fetch effect with the
new page; a third flush would find all deps unchanged and is the
identity. -/
def commit (rt : Runtime) : Runtime :=
  commitStep (commitStep rt)

/-- The user-facing and network-facing events of the component. -/
inductive Event where
  | input (v : String)
  | fire
  | clickPrev
  | clickNext
  | deliver (id : Nat) (o : Outcome)
deriving DecidableEq, Repr

/-- Look up an outstanding request by id. -/
def findReq (rt : Runtime) (i : Nat) : Option Request :=
  rt.pending.find? fun r => r.id = i

/-- Remove a resolved request from the outstanding set. -/
def removeReq (rt : Runtime) (i : Nat) : Runtime :=
  { rt with pending := rt.pending.filter fun r => ¬ r.id = i }

/-- The step relation. `none` marks an event that cannot occur:
the timer firing when none is armed, clicking a disabled button,
or a resolution inconsistent with the outstanding set (an aborted
fetch promise rejects with AbortError and nothing else; an unaborted
one resolves with a genuine network outcome).

* `input v` is a keystroke (or the Clear button): `setQuery(v)`; if the
  value changed, the debounce effect re-arms its timer with `v`
  (`clearTimeout` + `setTimeout`). No other effect depends on `query`.
* `fire` is the debounce timeout: `setV(v)` makes `debouncedQuery := v`
  and the render cascade runs the two effects.
* `clickPrev` / `clickNext` run the pagination handlers when the button
  is enabled, and the render cascade re-runs the fetch effect.
* `deliver i o` is the event-loop callback of request `i`'s promise;
  it applies the try/catch/finally state updates. The state updates it
  makes do not change any effect dependency, so no effect re-runs. -/
def step (rt : Runtime) : Event → Option Runtime
  | .input v =>
      if v = rt.app.query then some rt
      else some { rt with app := { rt.app with query := v }, timer := some v }
  | .fire =>
      match rt.timer with
      | none => none
      | some v =>
          some (commit { rt with app := { rt.app with debouncedQuery := v }, timer := none })
  | .clickPrev =>
      if prevDisabled rt.app.page then none
      else some (commit { rt with app := { rt.app with page := prevClick rt.app.page } })
  | .clickNext =>
      if nextDisabled rt.app.numFound rt.app.page then none
      else some (commit { rt with
        app := { rt.app with page := nextClick rt.app.numFound rt.app.page } })
  | .deliver i o =>
      match findReq rt i with
      | none => none
      | some r =>
          if (r.aborted = true ∧ o = .aborted) ∨ (r.aborted = false ∧ o ≠ .aborted) then
            some { removeReq rt i with app := applyOutcome o rt.app }
          else none

/-- Run a sequence of events. -/
def run (rt : Runtime) : List Event → Option Runtime
  | [] => some rt
  | e :: es =>
      match step rt e with
      | none => none
      | some rt' => run rt' es

/-- The state the initial render commits:
all `useState` initial values. -/
def initialState : AppState :=
  ⟨"", "", 1, [], 0, false, none⟩

/-- The runtime before any effect has run. -/
def premount : Runtime :=
  ⟨initialState, none, none, none, [], none, 0⟩

/-- The mounted component: the initial render's effects have run once
(the debounce effect armed its timer with the initial query, the
page-reset effect ran `setPage(1)`, the fetch effect took its
empty-query branch). -/
def init : Runtime :=
  { commit premount with timer := some initialState.query }

/-- A reachable runtime with one unaborted in-flight request
(id 0, key `("a", 1)`), shared by several witnesses below. -/
def rtOneReq : Runtime :=
  (run init [.input "a", .fire]).getD init

/-! Theorems settling the claims -/

@[simp] lemma abortCurrent_app (rt : Runtime) : (abortCurrent rt).app = rt.app := rfl

@[simp] lemma abortCurrent_timer (rt : Runtime) : (abortCurrent rt).timer = rt.timer := rfl

@[simp] lemma abortCurrent_resetDeps (rt : Runtime) :
    (abortCurrent rt).resetDeps = rt.resetDeps := rfl

@[simp] lemma abortCurrent_fetchDeps (rt : Runtime) :
    (abortCurrent rt).fetchDeps = rt.fetchDeps := rfl

@[simp] lemma abortCurrent_currentReq (rt : Runtime) :
    (abortCurrent rt).currentReq = rt.currentReq := rfl

@[simp] lemma abortCurrent_nextId (rt : Runtime) : (abortCurrent rt).nextId = rt.nextId := rfl

@[simp] lemma abortCurrent_pending_length (rt : Runtime) :
    (abortCurrent rt).pending.length = rt.pending.length := by
  simp [abortCurrent]

/-- C4: totalPages is the ceiling of numFound / 20 (characterized
arithmetically: it is the unique integer t with 20(t-1) < numFound ≤ 20t),
the displayed minimum is 1; Prev is disabled exactly at page 1 and
otherwise decrements clamped at 1; Next is disabled exactly when
page = totalPages or totalPages = 0 and otherwise increments clamped at
totalPages. -/
theorem C4_pagination (n : Nat) (p : Int) (hp : 1 ≤ p) :
    (20 * ((totalPages n : Int) - 1) < (n : Int) ∧ (n : Int) ≤ 20 * (totalPages n : Int)) ∧
    1 ≤ displayedTotalPages n ∧
    (prevDisabled p = true ↔ p = 1) ∧
    (prevDisabled p = true → uiPrev p = p) ∧
    (prevDisabled p = false → uiPrev p = p - 1 ∧ 1 ≤ uiPrev p) ∧
    (nextDisabled n p = true ↔ (p = (totalPages n : Int) ∨ totalPages n = 0)) ∧
    (nextDisabled n p = true → uiNext n p = p) ∧
    (nextDisabled n p = false →
      uiNext n p = min (totalPages n : Int) (p + 1) ∧ uiNext n p ≤ (totalPages n : Int)) := by
  refine ⟨?_, ?_, ?_, ?_, ?_, ?_, ?_, ?_⟩
  · simp only [totalPages, perPage]
    omega
  · simp only [displayedTotalPages]
    exact le_max_left 1 _
  · simp [prevDisabled]
  · intro h
    simp [uiPrev, h]
  · intro h
    have hne : ¬ p = 1 := by simpa [prevDisabled] using h
    constructor
    · simp only [uiPrev, h, Bool.false_eq_true, if_false, prevClick]
      omega
    · simp only [uiPrev, h, Bool.false_eq_true, if_false, prevClick]
      omega
  · simp [nextDisabled]
  · intro h
    simp [uiNext, h]
  · intro h
    have hne : ¬ (p = (totalPages n : Int) ∨ totalPages n = 0) := by
      simpa [nextDisabled] using h
    have htp : ¬ totalPages n = 0 := fun hc => hne (Or.inr hc)
    constructor
    · simp only [uiNext, h, Bool.false_eq_true, if_false, nextClick, htp]
    · simp only [uiNext, h, Bool.false_eq_true, if_false, nextClick, htp]
      omega

/-- C4 witness: numFound 45, page 1 — totalPages 3, Prev disabled,
Next enabled and going to page 2. -/
theorem C4_pagination_witness :
    (1 : Int) ≤ 1 ∧
    ((20 * ((totalPages 45 : Int) - 1) < (45 : Int) ∧ ((45 : Nat) : Int) ≤ 20 * (totalPages 45 : Int)) ∧
      1 ≤ displayedTotalPages 45 ∧
      (prevDisabled 1 = true ↔ (1 : Int) = 1) ∧
      (prevDisabled 1 = true → uiPrev 1 = 1) ∧
      (prevDisabled 1 = false → uiPrev 1 = 1 - 1 ∧ 1 ≤ uiPrev 1) ∧
      (nextDisabled 45 1 = true ↔ ((1 : Int) = (totalPages 45 : Int) ∨ totalPages 45 = 0)) ∧
      (nextDisabled 45 1 = true → uiNext 45 1 = 1) ∧
      (nextDisabled 45 1 = false →
        uiNext 45 1 = min (totalPages 45 : Int) (1 + 1) ∧ uiNext 45 1 ≤ (totalPages 45 : Int))) :=
  ⟨by decide, C4_pagination 45 1 (by decide)⟩

/-- C5 counterexample: trace where the request resolves 2xx with valid
JSON whose docs field is absent — the final state is a Success-shaped
state (error cleared to none, results defaulted to the empty list,
numFound applied, loading cleared), not a Failed one. -/
theorem C5_counterexample :
    (run init [.input "a", .fire, .deliver 0 (.success none (some 5))]).isSome = true ∧
    ((run init [.input "a", .fire, .deliver 0 (.success none (some 5))]).getD init).app.error = none ∧
    ((run init [.input "a", .fire, .deliver 0 (.success none (some 5))]).getD init).app.results = [] ∧
    ((run init [.input "a", .fire, .deliver 0 (.success none (some 5))]).getD init).app.numFound = 5 ∧
    ((run init [.input "a", .fire, .deliver 0 (.success none (some 5))]).getD init).app.loading = false := by
  decide

/-- C5 amended: a non-2xx status or a non-JSON body produces the Failed
state (error set to the exception's message, loading cleared); a 2xx
JSON response lacking docs does NOT fail — it is handled as a success
with results defaulted to the empty list and numFound applied. -/
theorem C5_error_classification (s : AppState) (n : Option Nat) (m : String) :
    (applyOutcome .httpError s).error = some "Network response was not ok" ∧
    (applyOutcome .httpError s).loading = false ∧
    (applyOutcome (.jsonError m) s).error = some m ∧
    (applyOutcome (.jsonError m) s).loading = false ∧
    (applyOutcome (.success none n) s).error = s.error ∧
    (applyOutcome (.success none n) s).results = [] ∧
    (applyOutcome (.success none n) s).numFound = n.getD 0 := by
  simp [applyOutcome]

/-- C8 counterexample: a record whose cover_i field is present with
value 0 and whose isbn is present and non-empty resolves to the
isbn-based URL, not the numeric-id form — JavaScript's
`if (doc.cover_i)` is a truthiness test and 0 is falsy. -/
theorem C8_counterexample :
    (Doc.mk "OL1W" "t" none none (some 0) (some ["111"])).cover_i.isSome = true ∧
    (Doc.mk "OL1W" "t" none none (some 0) (some ["111"])).isbn.isSome = true ∧
    coverUrl (Doc.mk "OL1W" "t" none none (some 0) (some ["111"])) =
      some "https://covers.openlibrary.org/b/isbn/111-M.jpg" := by
  decide

/-- C8 amended: with cover_i present and non-zero (truthy), the
numeric-id form is chosen regardless of isbn; with cover_i absent or
zero and isbn present and non-empty, the isbn form using the first
ISBN; with cover_i absent or zero and isbn absent or empty, no cover
URL. -/
theorem C8_cover_resolution (d : Doc) (c : Nat) (i : String) (l : List String) :
    (d.cover_i = some c → c ≠ 0 →
      coverUrl d = some ("https://covers.openlibrary.org/b/id/" ++ toString c ++ "-M.jpg")) ∧
    ((d.cover_i = none ∨ d.cover_i = some 0) → d.isbn = some (i :: l) →
      coverUrl d = some ("https://covers.openlibrary.org/b/isbn/" ++ i ++ "-M.jpg")) ∧
    ((d.cover_i = none ∨ d.cover_i = some 0) → (d.isbn = none ∨ d.isbn = some []) →
      coverUrl d = none) := by
  refine ⟨?_, ?_, ?_⟩
  · intro hc hz
    simp [coverUrl, truthyNum, hc, hz]
  · intro hc hi
    rcases hc with hc | hc <;> simp [coverUrl, truthyNum, truthyList, hc, hi]
  · intro hc hi
    rcases hc with hc | hc <;> rcases hi with hi | hi <;>
      simp [coverUrl, truthyNum, truthyList, hc, hi]

lemma abort_pointwise {pend : List Request} {cur : Option Nat}
    (hP : ∀ r ∈ pend, r.aborted = true ∨ some r.id = cur) :
    ∀ a ∈ pend,
      (if some a.id = cur then Request.mk a.id a.query a.page true else a).aborted = true := by
  intro a ha
  by_cases h : some a.id = cur
  · simp [h]
  · simp only [h, if_false]
    rcases hP a ha with h' | h'
    · exact h'
    · exact absurd h' h

lemma requestUrl_limit20 (q : String) (p : Int) :
    requestUrl q p =
      "https://openlibrary.org/search.json?title=" ++ encodeURIComponent q ++
        "&limit=20&offset=" ++ toString ((p - 1) * 20) := by
  unfold requestUrl
  congr 1
  rw [String.append_assoc, String.append_assoc]
  congr 1

/-- C3: a run of the fetch effect for a non-empty query issues exactly
one new request; its URL carries the URL-encoded query as the title
parameter, limit fixed at 20 and offset (page-1)*20; and a successful
response applies the docs list (defaulting to empty when absent) and
numFound (defaulting to 0 when absent), clearing loading. -/
theorem C3_request_shape (rt : Runtime) (q : String) (p : Int) (h : q ≠ "") :
    (runFetchEffect rt q p).pending =
      (abortCurrent rt).pending ++ [⟨rt.nextId, q, p, false⟩] ∧
    (runFetchEffect rt q p).pending.length = rt.pending.length + 1 ∧
    (runFetchEffect rt q p).currentReq = some rt.nextId ∧
    Request.url ⟨rt.nextId, q, p, false⟩ =
      "https://openlibrary.org/search.json?title=" ++ encodeURIComponent q ++
        "&limit=20&offset=" ++ toString ((p - 1) * 20) ∧
    (∀ s docs n, applyOutcome (.success docs n) s =
      { s with results := docs.getD [], numFound := n.getD 0, loading := false }) := by
  refine ⟨?_, ?_, ?_, ?_, ?_⟩
  · simp [runFetchEffect, h]
  · simp [runFetchEffect, abortCurrent, h]
  · simp [runFetchEffect, h]
  · exact requestUrl_limit20 q p
  · intro s docs n
    simp [applyOutcome]

/-- C3 witness: the fetch for ("the alchemist", page 2) from the
mounted runtime. -/
theorem C3_request_shape_witness :
    (runFetchEffect init "the alchemist" 2).pending.length = init.pending.length + 1 ∧
    Request.url ⟨init.nextId, "the alchemist", 2, false⟩ =
      "https://openlibrary.org/search.json?title=" ++ encodeURIComponent "the alchemist" ++
        "&limit=20&offset=" ++ toString (((2 : Int) - 1) * 20) :=
  ⟨(C3_request_shape init "the alchemist" 2 (by decide)).2.1,
    (C3_request_shape init "the alchemist" 2 (by decide)).2.2.2.1⟩

/-- C6: a non-cancellation failure (non-2xx status or malformed
response) sets error to the human-readable exception message and
clears loading, leaving results and numFound at their last known
values. -/
theorem C6_failure_frame (rt rt' : Runtime) (i : Nat) (r : Request) (o : Outcome) (m : String)
    (hr : findReq rt i = some r)
    (ho : o = .httpError ∨ o = .jsonError m)
    (hs : step rt (.deliver i o) = some rt') :
    rt'.app.error = some (if o = .httpError then "Network response was not ok" else m) ∧
    rt'.app.loading = false ∧
    rt'.app.results = rt.app.results ∧
    rt'.app.numFound = rt.app.numFound := by
  rcases ho with rfl | rfl
  · simp only [step, hr] at hs
    split at hs
    · obtain rfl := (Option.some.inj hs).symm
      simp [applyOutcome, removeReq]
    · cases hs
  · simp only [step, hr] at hs
    split at hs
    · obtain rfl := (Option.some.inj hs).symm
      simp [applyOutcome, removeReq]
    · cases hs

/-- C6 witness: the in-flight request of rtOneReq failing with a
non-2xx status. -/
theorem C6_failure_frame_witness :
    ((step rtOneReq (.deliver 0 .httpError)).getD init).app.error =
      some (if (Outcome.httpError = Outcome.httpError) then "Network response was not ok" else "boom") ∧
    ((step rtOneReq (.deliver 0 .httpError)).getD init).app.loading = false ∧
    ((step rtOneReq (.deliver 0 .httpError)).getD init).app.results = rtOneReq.app.results ∧
    ((step rtOneReq (.deliver 0 .httpError)).getD init).app.numFound = rtOneReq.app.numFound :=
  C6_failure_frame rtOneReq ((step rtOneReq (.deliver 0 .httpError)).getD init) 0
    ⟨0, "a", 1, false⟩ .httpError "boom" (by decide) (Or.inl rfl) (by decide)

/-- C1 counterexample: request 0 for key ("a",1) is still pending when
request 1 for key ("ab",1) starts (and is aborted by the new effect
run); when its AbortError rejection is delivered, the finally clause
still runs setLoading(false) — a loading state transition caused by
the superseded request after the second has started, while the second
is still in flight. -/
theorem C1_counterexample :
    (run init [.input "a", .fire, .input "ab", .fire]).isSome = true ∧
    (run init [.input "a", .fire, .input "ab", .fire, .deliver 0 .aborted]).isSome = true ∧
    ((run init [.input "a", .fire, .input "ab", .fire]).getD init).app.loading = true ∧
    (⟨0, "a", 1, true⟩ : Request) ∈
      ((run init [.input "a", .fire, .input "ab", .fire]).getD init).pending ∧
    ((run init [.input "a", .fire, .input "ab", .fire, .deliver 0 .aborted]).getD init).app.loading
      = false ∧
    (⟨1, "ab", 1, false⟩ : Request) ∈
      ((run init [.input "a", .fire, .input "ab", .fire, .deliver 0 .aborted]).getD init).pending := by
  decide

/-- C1 amended: a cancelled (aborted) request can only resolve with the
AbortError outcome, and delivering it never transitions results,
numFound, error or page — its only effect on component state is the
finally clause's setLoading(false). The second request's own
resolution therefore owns the results/numFound/error transitions. -/
theorem C1_cancelled_frame (rt rt' : Runtime) (i : Nat) (r : Request) (o : Outcome)
    (hr : findReq rt i = some r) (ha : r.aborted = true)
    (hs : step rt (.deliver i o) = some rt') :
    o = .aborted ∧
    rt'.app.results = rt.app.results ∧
    rt'.app.numFound = rt.app.numFound ∧
    rt'.app.error = rt.app.error ∧
    rt'.app.page = rt.app.page ∧
    rt'.app.loading = false := by
  simp only [step, hr] at hs
  split at hs
  case isTrue hc =>
    obtain rfl : o = .aborted := by
      rcases hc with ⟨_, rfl⟩ | ⟨hf, _⟩
      · rfl
      · rw [ha] at hf
        cases hf
    obtain rfl := (Option.some.inj hs).symm
    simp [applyOutcome, removeReq]
  case isFalse => cases hs

/-- A reachable runtime in which the superseded request 0 is aborted
and the later request 1 is in flight. -/
def rtTwoReq : Runtime :=
  (run init [.input "a", .fire, .input "ab", .fire]).getD init

/-- C1 witness: delivering the aborted request 0 of rtTwoReq. -/
theorem C1_cancelled_frame_witness :
    (Outcome.aborted = Outcome.aborted) ∧
    ((step rtTwoReq (.deliver 0 .aborted)).getD init).app.results = rtTwoReq.app.results ∧
    ((step rtTwoReq (.deliver 0 .aborted)).getD init).app.numFound = rtTwoReq.app.numFound ∧
    ((step rtTwoReq (.deliver 0 .aborted)).getD init).app.error = rtTwoReq.app.error ∧
    ((step rtTwoReq (.deliver 0 .aborted)).getD init).app.page = rtTwoReq.app.page ∧
    ((step rtTwoReq (.deliver 0 .aborted)).getD init).app.loading = false :=
  C1_cancelled_frame rtTwoReq ((step rtTwoReq (.deliver 0 .aborted)).getD init) 0
    ⟨0, "a", 1, true⟩ .aborted (by decide) (by decide) (by decide)

/-- C7: when the debounced query becomes empty, the next render's
effects put the component in the idle state — results cleared to the
empty list, numFound to 0, error to none — with no new request issued
(nextId and the number of outstanding requests are unchanged), and
every outstanding request, in particular the in-flight one of the
previous non-empty query, aborted. -/
theorem C7_empty_query_idle (rt rt' : Runtime)
    (hT : rt.timer = some "")
    (hq : rt.app.debouncedQuery ≠ "")
    (hR : rt.resetDeps = some rt.app.debouncedQuery)
    (hF : rt.fetchDeps = some (rt.app.debouncedQuery, rt.app.page))
    (hP : ∀ r ∈ rt.pending, r.aborted = true ∨ some r.id = rt.currentReq)
    (hs : step rt .fire = some rt') :
    rt'.app.results = [] ∧
    rt'.app.numFound = 0 ∧
    rt'.app.error = none ∧
    rt'.currentReq = none ∧
    rt'.nextId = rt.nextId ∧
    rt'.pending.length = rt.pending.length ∧
    ∀ r ∈ rt'.pending, r.aborted = true := by
  obtain ⟨⟨qq, dq, p, res, nf, ld, er⟩, tm, rd, fd, pend, cur, nid⟩ := rt
  dsimp only at hT hq hR hF hP ⊢
  subst hT hR hF
  simp only [step] at hs
  obtain rfl := (Option.some.inj hs).symm
  have h1 : (some dq : Option String) ≠ some "" := by simpa using hq
  have h2 : (some (dq, p) : Option (String × Int)) ≠ some ("", p) := by
    intro hcc
    exact hq (congrArg Prod.fst (Option.some.inj hcc))
  by_cases hp : p = 1
  · subst hp
    simp [commit, commitStep, runFetchEffect, abortCurrent, h1, h2]
    exact abort_pointwise hP
  · have h3 : (some ("", p) : Option (String × Int)) ≠ some ("", 1) := by
      intro hcc
      exact hp (congrArg Prod.snd (Option.some.inj hcc))
    simp [commit, commitStep, runFetchEffect, abortCurrent, h1, h2, h3]
    exact abort_pointwise hP

/-- A reachable runtime whose debounce timer is armed with the empty
string while a request for the previous query "a" is in flight. -/
def rtClearing : Runtime :=
  (run init [.input "a", .fire, .input ""]).getD init

/-- C7 witness: clearing the query of rtClearing. -/
theorem C7_empty_query_idle_witness :
    ((step rtClearing .fire).getD init).app.results = [] ∧
    ((step rtClearing .fire).getD init).app.numFound = 0 ∧
    ((step rtClearing .fire).getD init).app.error = none ∧
    ((step rtClearing .fire).getD init).currentReq = none ∧
    ((step rtClearing .fire).getD init).nextId = rtClearing.nextId ∧
    ((step rtClearing .fire).getD init).pending.length = rtClearing.pending.length ∧
    ∀ r ∈ ((step rtClearing .fire).getD init).pending, r.aborted = true :=
  C7_empty_query_idle rtClearing ((step rtClearing .fire).getD init)
    (by decide) (by decide) (by decide) (by decide) (by decide) (by decide)

/-- C2: whenever the debounced query changes — including to or from the
empty string — the resulting update cycle resets the page to 1. For a
change to a non-empty value, the current (unaborted) request has key
(new query, 1) and every other outstanding request is aborted, so the
only request able to apply results for the new query uses page 1. For
a change to the empty value, no request survives: there is no current
request and every outstanding request is aborted. -/
theorem C2_new_query_fetches_page_one (rt rt' : Runtime) (v : String)
    (hT : rt.timer = some v)
    (hq : v ≠ rt.app.debouncedQuery)
    (hR : rt.resetDeps = some rt.app.debouncedQuery)
    (hF : rt.fetchDeps = some (rt.app.debouncedQuery, rt.app.page))
    (hP : ∀ r ∈ rt.pending, r.aborted = true ∨ some r.id = rt.currentReq)
    (hs : step rt .fire = some rt') :
    rt'.app.debouncedQuery = v ∧
    rt'.app.page = 1 ∧
    (v ≠ "" → ∃ j, rt'.currentReq = some j ∧
      (Request.mk j v 1 false) ∈ rt'.pending ∧
      ∀ r ∈ rt'.pending, r.aborted = true ∨ r = Request.mk j v 1 false) ∧
    (v = "" → rt'.currentReq = none ∧ ∀ r ∈ rt'.pending, r.aborted = true) := by
  obtain ⟨⟨qq, dq, p, res, nf, ld, er⟩, tm, rd, fd, pend, cur, nid⟩ := rt
  dsimp only at hT hq hR hF hP ⊢
  subst hT hR hF
  simp only [step] at hs
  obtain rfl := (Option.some.inj hs).symm
  have h1 : (some dq : Option String) ≠ some v := by
    intro hcc
    exact hq (Option.some.inj hcc).symm
  have h2 : (some (dq, p) : Option (String × Int)) ≠ some (v, p) := by
    intro hcc
    exact hq (congrArg Prod.fst (Option.some.inj hcc)).symm
  by_cases hv : v = ""
  · subst hv
    by_cases hp : p = 1
    · subst hp
      simp [commit, commitStep, runFetchEffect, abortCurrent, h1, h2]
      exact abort_pointwise hP
    · have h3 : (some ("", p) : Option (String × Int)) ≠ some ("", 1) := by
        intro hcc
        exact hp (congrArg Prod.snd (Option.some.inj hcc))
      simp [commit, commitStep, runFetchEffect, abortCurrent, h1, h2, h3]
      exact abort_pointwise hP
  · by_cases hp : p = 1
    · subst hp
      simp [commit, commitStep, runFetchEffect, abortCurrent, h1, h2, hv]
      intro r h
      rcases h with ⟨a, ha, rfl⟩ | rfl
      · left
        by_cases hc : some a.id = cur
        · simp [hc]
        · simp only [hc, if_false]
          rcases hP a ha with h' | h'
          · exact h'
          · exact absurd h' hc
      · right
        rfl
    · have h3 : (some (v, p) : Option (String × Int)) ≠ some (v, 1) := by
        intro hcc
        exact hp (congrArg Prod.snd (Option.some.inj hcc))
      simp [commit, commitStep, runFetchEffect, abortCurrent, h1, h2, h3, hv]
      intro r h
      rcases h with ⟨a, ha, rfl⟩ | rfl | rfl
      · left
        by_cases hn : (if some a.id = cur then Request.mk a.id a.query a.page true else a).id = nid
        · simp [hn]
        · simp only [hn, if_false]
          by_cases hc : some a.id = cur
          · simp [hc]
          · simp only [hc, if_false]
            rcases hP a ha with h' | h'
            · exact h'
            · exact absurd h' hc
      · left
        rfl
      · right
        rfl

/-- C2 counterexample: with the user on page 2 of query "a", changing
the query to "b" runs the fetch effect in the same flush as the
page-reset effect but with the committed render's old page — so the
first (lowest-id) request issued for the new query "b" is request 2
with page 2, immediately aborted and superseded by request 3 with
page 1. The immediately following fetch for the new query did not use
PageNumber = 1. -/
theorem C2_counterexample :
    (run init [.input "a", .fire, .deliver 0 (.success (some []) (some 40)), .clickNext,
      .input "b", .fire]).isSome = true ∧
    ((run init [.input "a", .fire, .deliver 0 (.success (some []) (some 40)), .clickNext,
      .input "b", .fire]).getD init).pending =
      [⟨1, "a", 2, true⟩, ⟨2, "b", 2, true⟩, ⟨3, "b", 1, false⟩] := by
  decide

/-- A reachable runtime on query "a", page 1, whose debounce timer is
armed with the new query "b". -/
def rtMid : Runtime :=
  (run init [.input "a", .fire, .input "b"]).getD init

/-- C2 witness: firing the debounce timer of rtMid (query changes to
the non-empty "b") and of rtClearing (query changes to empty). -/
theorem C2_new_query_fetches_page_one_witness :
    ((step rtMid .fire).getD init).app.page = 1 ∧
    (∃ j, ((step rtMid .fire).getD init).currentReq = some j ∧
      (Request.mk j "b" 1 false) ∈ ((step rtMid .fire).getD init).pending ∧
      ∀ r ∈ ((step rtMid .fire).getD init).pending,
        r.aborted = true ∨ r = Request.mk j "b" 1 false) ∧
    ((step rtClearing .fire).getD init).app.page = 1 ∧
    ((step rtClearing .fire).getD init).currentReq = none :=
  ⟨(C2_new_query_fetches_page_one rtMid ((step rtMid .fire).getD init) "b"
      (by decide) (by decide) (by decide) (by decide) (by decide) (by decide)).2.1,
    (C2_new_query_fetches_page_one rtMid ((step rtMid .fire).getD init) "b"
      (by decide) (by decide) (by decide) (by decide) (by decide) (by decide)).2.2.1
      (by decide),
    (C2_new_query_fetches_page_one rtClearing ((step rtClearing .fire).getD init) ""
      (by decide) (by decide) (by decide) (by decide) (by decide) (by decide)).2.1,
    ((C2_new_query_fetches_page_one rtClearing ((step rtClearing .fire).getD init) ""
      (by decide) (by decide) (by decide) (by decide) (by decide) (by decide)).2.2.2 rfl).1⟩

/-! The debouncer in real time -/

/-- State of `useDebounced`: the emitted value `v` and the pending
`setTimeout` (absolute firing time and the captured value). -/
structure DebState where
  v : String
  timer : Option (Nat × String)
deriving DecidableEq, Repr

/-- One raw-input change at absolute time `inp.1` with value `inp.2`:
the effect's cleanup cancels the pending timer — but if that timer's
firing time has already passed, it fired first and emitted (`setV`) —
and `setTimeout(() => setV(value), delay)` arms a new timer.
The second component accumulates the emissions (time, value). -/
def debStep (delay : Nat) (acc : DebState × List (Nat × String)) (inp : Nat × String) :
    DebState × List (Nat × String) :=
  let s := acc.1
  let ems := acc.2
  match s.timer with
  | some (ft, y) =>
      if ft ≤ inp.1 then
        (⟨y, some (inp.1 + delay, inp.2)⟩, ems ++ [(ft, y)])
      else
        (⟨s.v, some (inp.1 + delay, inp.2)⟩, ems)
  | none => (⟨s.v, some (inp.1 + delay, inp.2)⟩, ems)

/-- Feed a timed input sequence to the debouncer, then let it reach
quiescence (the last armed timer fires and emits). -/
def debRun (delay : Nat) (s : DebState) (inps : List (Nat × String)) :
    DebState × List (Nat × String) :=
  let r := inps.foldl (debStep delay) (s, [])
  match r.1.timer with
  | some (ft, y) => (⟨y, none⟩, r.2 ++ [(ft, y)])
  | none => r

lemma debFold (delay : Nat) (v0 y : String) (tp : Nat) (inps : List (Nat × String))
    (ems : List (Nat × String))
    (hch : List.Chain (fun a b => a.1 ≤ b.1 ∧ b.1 < a.1 + delay) (tp, y) inps) :
    inps.foldl (debStep delay) (⟨v0, some (tp + delay, y)⟩, ems) =
      (⟨v0, some ((inps.getLastD (tp, y)).1 + delay, (inps.getLastD (tp, y)).2)⟩, ems) := by
  induction inps generalizing tp y with
  | nil => simp [List.getLastD]
  | cons hd tl ih =>
      cases hch with
      | cons hrel hch' =>
          have hnot : ¬ (tp + delay ≤ hd.1) := by omega
          simp only [List.foldl_cons, debStep, hnot, if_false]
          rw [List.getLastD_cons]
          exact ih hd.2 hd.1 hch'

/-- C9: for any non-empty input sequence whose consecutive timed values
are each less than one delay apart (and time-ordered), the debounced
output emits exactly once — the final value, exactly one delay after
the last input — and no intermediate value is ever emitted. -/
theorem C9_debounce (delay : Nat) (v0 : String) (t1 : Nat) (x1 : String)
    (rest : List (Nat × String))
    (hch : List.Chain (fun a b => a.1 ≤ b.1 ∧ b.1 < a.1 + delay) (t1, x1) rest) :
    debRun delay ⟨v0, none⟩ ((t1, x1) :: rest) =
      (⟨(rest.getLastD (t1, x1)).2, none⟩,
        [((rest.getLastD (t1, x1)).1 + delay, (rest.getLastD (t1, x1)).2)]) := by
  unfold debRun
  simp only [List.foldl_cons, debStep]
  rw [debFold delay v0 x1 t1 rest [] hch]
  simp

/-- C9 witness: three keystrokes 100ms apart with the default 450ms
delay — a single emission of the final value at 200 + 450. -/
theorem C9_debounce_witness :
    debRun defaultDelay ⟨"", none⟩ [(0, "Dune"), (100, "Dune "), (200, "Dune")] =
      (⟨"Dune", none⟩, [(650, "Dune")]) := by
  have h := C9_debounce defaultDelay "" 0 "Dune" [(100, "Dune "), (200, "Dune")]
    (List.Chain.cons (by decide) (List.Chain.cons (by decide) List.Chain.nil))
  simpa using h

/-! The page-number invariant -/

lemma applyOutcome_page (o : Outcome) (s : AppState) : (applyOutcome o s).page = s.page := by
  cases o <;> rfl

lemma page_runFetchEffect (rt : Runtime) (q : String) (p : Int) :
    (runFetchEffect rt q p).app.page = rt.app.page := by
  simp only [runFetchEffect]
  split <;> rfl

lemma page_commitStep (rt : Runtime) :
    (commitStep rt).app.page = 1 ∨ (commitStep rt).app.page = rt.app.page := by
  by_cases h1 : rt.resetDeps ≠ some rt.app.debouncedQuery
  · left
    simp only [commitStep, if_pos h1]
  · right
    simp only [commitStep, if_neg h1]
    by_cases h2 : rt.fetchDeps ≠ some (rt.app.debouncedQuery, rt.app.page)
    · simp only [if_pos h2]
      exact page_runFetchEffect rt rt.app.debouncedQuery rt.app.page
    · simp only [if_neg h2]

lemma page_commit_ge (rt : Runtime) (h : 1 ≤ rt.app.page) : 1 ≤ (commit rt).app.page := by
  unfold commit
  rcases page_commitStep (commitStep rt) with h' | h'
  · rw [h']
  · rw [h']
    rcases page_commitStep rt with h'' | h''
    · rw [h'']
    · rw [h'']
      exact h

lemma page_step_ge (rt rt' : Runtime) (e : Event)
    (h : 1 ≤ rt.app.page) (hs : step rt e = some rt') : 1 ≤ rt'.app.page := by
  cases e with
  | input v =>
      simp only [step] at hs
      split at hs
      · obtain rfl := (Option.some.inj hs).symm
        exact h
      · obtain rfl := (Option.some.inj hs).symm
        exact h
  | fire =>
      simp only [step] at hs
      rcases htm : rt.timer with _ | v
      · rw [htm] at hs
        cases hs
      · rw [htm] at hs
        obtain rfl := (Option.some.inj hs).symm
        exact page_commit_ge _ h
  | clickPrev =>
      simp only [step] at hs
      split at hs
      · cases hs
      · obtain rfl := (Option.some.inj hs).symm
        refine page_commit_ge _ ?_
        show (1 : Int) ≤ prevClick rt.app.page
        unfold prevClick
        omega
  | clickNext =>
      simp only [step] at hs
      split at hs
      · cases hs
      · obtain rfl := (Option.some.inj hs).symm
        refine page_commit_ge _ ?_
        show (1 : Int) ≤ nextClick rt.app.numFound rt.app.page
        unfold nextClick
        split <;> omega
  | deliver i o =>
      rcases hf : findReq rt i with _ | r
      · simp only [step, hf] at hs
        cases hs
      · simp only [step, hf] at hs
        split at hs
        · obtain rfl := (Option.some.inj hs).symm
          show (1 : Int) ≤ (applyOutcome o rt.app).page
          rw [applyOutcome_page]
          exact h
        · cases hs

lemma page_run_ge (evs : List Event) :
    ∀ rt rt', 1 ≤ rt.app.page → run rt evs = some rt' → 1 ≤ rt'.app.page := by
  induction evs with
  | nil =>
      intro rt rt' h hr
      simp only [run] at hr
      obtain rfl := (Option.some.inj hr).symm
      exact h
  | cons e es ih =>
      intro rt rt' h hr
      simp only [run] at hr
      rcases hst : step rt e with _ | rt1
      · rw [hst] at hr
        cases hr
      · rw [hst] at hr
        exact ih rt1 rt' (page_step_ge rt rt1 e h hst) hr

/-- C10: in every reachable runtime the page number is at least 1 —
it starts at 1, the reset effect sets it to 1, Prev clamps at 1 and
Next only moves among values at least 1. -/
theorem C10_page_at_least_one (evs : List Event) (rt : Runtime)
    (h : run init evs = some rt) : 1 ≤ rt.app.page :=
  page_run_ge evs init rt (by decide) h

/-- C10 witness: a run that exercises fetch, success and Next. -/
theorem C10_page_at_least_one_witness :
    1 ≤ ((run init [.input "a", .fire, .deliver 0 (.success (some []) (some 40)),
      .clickNext]).getD init).app.page :=
  C10_page_at_least_one [.input "a", .fire, .deliver 0 (.success (some []) (some 40)),
    .clickNext] _ (by decide)

/-- C8 witness: the three branches at concrete records. -/
theorem C8_cover_resolution_witness :
    coverUrl (Doc.mk "k" "t" none none (some 7) (some ["111"])) =
      some ("https://covers.openlibrary.org/b/id/" ++ toString (7 : Nat) ++ "-M.jpg") ∧
    coverUrl (Doc.mk "k" "t" none none (some 0) (some ["111"])) =
      some ("https://covers.openlibrary.org/b/isbn/" ++ "111" ++ "-M.jpg") ∧
    coverUrl (Doc.mk "k" "t" none none none none) = none :=
  ⟨(C8_cover_resolution (Doc.mk "k" "t" none none (some 7) (some ["111"])) 7 "" []).1
      rfl (by decide),
    (C8_cover_resolution (Doc.mk "k" "t" none none (some 0) (some ["111"])) 0 "111" []).2.1
      (Or.inr rfl) rfl,
    (C8_cover_resolution (Doc.mk "k" "t" none none none none) 0 "" []).2.2
      (Or.inl rfl) (Or.inl rfl)⟩

end BookFinder
